import Mathlib

/-!
Shallow embedding of the cf-proxy Cloudflare-Workers reverse proxy
(crate root src/lib.rs with modules cache.rs, config.rs, health.rs,
load_balancer.rs, middleware.rs) and proofs about its claimed behavior.

Strings from the Rust side are modelled by Lean `String`; byte bodies by
`List Nat`; the wall clock by `Nat` seconds; the `HashMap` fields by
association lists.  Primitive string operations of the Rust standard
library (starts_with, split, to_lowercase) are re-implemented over
`List Char` so that every definition is kernel-computable.
-/

namespace CfProxy

/-- Model of `str::starts_with` on character lists: `listStarts s p` is true
when `p` is an initial run of `s`. -/
def listStarts : List Char → List Char → Bool
  | _, [] => true
  | [], _ :: _ => false
  | c :: cs, p :: ps => if c = p then listStarts cs ps else false

/-- Model of `str::starts_with` on strings. -/
def strStarts (s pre : String) : Bool :=
  listStarts s.data pre.data

/-- Model of `str::contains` (substring search) on character lists. -/
def hasSub : List Char → List Char → Bool
  | _, [] => true
  | [], _ :: _ => false
  | c :: cs, p :: ps => if listStarts (c :: cs) (p :: ps) then true else hasSub cs (p :: ps)

/-- Model of `str::contains` (substring search) on strings. -/
def containsSub (s pat : String) : Bool :=
  hasSub s.data pat.data

/-- Drop the first `n` characters of a string, as Rust slicing past a known
ASCII marker does. -/
def strDrop (s : String) (n : Nat) : String :=
  String.mk (s.data.drop n)

/-- Model of `str::to_lowercase` restricted to ASCII, which is how the code
uses it (strategy names, header names, hostnames). -/
def lowerStr (s : String) : String :=
  String.mk (s.data.map Char.toLower)

/-- Helper for `splitChar`: accumulates the current field in reverse. -/
def splitCharAux : List Char → Char → List Char → List (List Char)
  | [], _, acc => [acc.reverse]
  | x :: xs, c, acc =>
    if x = c then acc.reverse :: splitCharAux xs c [] else splitCharAux xs c (x :: acc)

/-- Model of Rust `str::split(c)` (and of `String::splitOn` for a one-char
separator): splits at every occurrence, keeping empty fields. -/
def splitChar (s : String) (c : Char) : List String :=
  (splitCharAux s.data c []).map String.mk

/-- Model of `Vec::join(sep)` for strings. -/
def joinWith (sep : String) : List String → String
  | [] => ""
  | [x] => x
  | x :: y :: xs => x ++ sep ++ joinWith sep (y :: xs)

/-- Split a string at the first occurrence of a character, returning the part
before it and, when the character occurs, the part after it. -/
def splitCharFirst : List Char → Char → List Char × Option (List Char)
  | [], _ => ([], none)
  | x :: xs, c =>
    if x = c then ([], some xs)
    else
      let r := splitCharFirst xs c
      (x :: r.1, r.2)

/-- String version of `splitCharFirst`. -/
def splitFirst (s : String) (c : Char) : String × Option String :=
  let r := splitCharFirst s.data c
  (String.mk r.1, r.2.map String.mk)

/-- Parse a run of ASCII digits as a number; `none` on any non-digit. -/
def digitsToNat (cs : List Char) : Option Nat :=
  cs.foldl
    (fun acc c =>
      match acc with
      | none => none
      | some n => if c.isDigit then some (n * 10 + (c.toNat - 48)) else none)
    (some 0)

/-! ## HTTP primitives: methods, headers, requests, responses -/

/-- HTTP method, as in `worker::Method`. -/
inductive HttpMethod where
  | get | head | post | put | delete | options | patch | trace | connect
deriving DecidableEq

/-- Printed method name used when building the cache key string. -/
def methodToString : HttpMethod → String
  | .get => "GET"
  | .head => "HEAD"
  | .post => "POST"
  | .put => "PUT"
  | .delete => "DELETE"
  | .options => "OPTIONS"
  | .patch => "PATCH"
  | .trace => "TRACE"
  | .connect => "CONNECT"

/-- Header maps are association lists; `worker::Headers` compares names
ASCII-case-insensitively (Fetch specification), modelled by `keyEq`. -/
abbrev HeaderMap := List (String × String)

/-- Case-insensitive header-name equality. -/
def keyEq (a b : String) : Bool :=
  lowerStr a = lowerStr b

/-- Model of `Headers::get`: first entry whose name matches. -/
def hget (n : String) : HeaderMap → Option String
  | [] => none
  | (k, v) :: rest => if keyEq k n then some v else hget n rest

/-- Model of `Headers::delete`: drop every entry with the given name. -/
def hdel (n : String) (h : HeaderMap) : HeaderMap :=
  h.filter (fun p => !keyEq p.1 n)

/-- Model of `Headers::set`: replace any entry with the given name. -/
def hset (n v : String) (h : HeaderMap) : HeaderMap :=
  hdel n h ++ [(n, v)]

/-- Inbound request as the pipeline sees it.  `urlString` is the full
request URL (used only for the scheme test), `path` and `query` are the
components `req.url()?.path()` and `.query()` return, `cf_country` is the
platform-supplied geo code (the nesting of `req.cf()` and `.country()`,
both optional, collapses to one `Option`), and `body` is the byte body. -/
structure Req where
  method : HttpMethod
  urlString : String
  path : String
  query : Option String
  cf_country : Option String
  headers : HeaderMap
  body : List Nat
deriving DecidableEq

/-- Outbound request produced by `create_proxy_request`. -/
structure OutReq where
  method : HttpMethod
  url : String
  headers : HeaderMap
  body : List Nat
deriving DecidableEq

/-- Response model: status code, headers, text body. -/
structure Resp where
  status : Nat
  headers : HeaderMap
  body : String
deriving DecidableEq

/-- Model of `Response::error(msg, code)`. -/
def respError (msg : String) (code : Nat) : Resp :=
  { status := code, headers := [], body := msg }

/-- Model of `Response::ok(body)` (and of `Response::empty()` with `""`). -/
def respOk (body : String) : Resp :=
  { status := 200, headers := [], body := body }

/-! ## Configuration (config.rs) -/

/-- Path rewrite rule, as in config.rs. -/
structure PathRewriteRule where
  pattern : String
  replacement : String
deriving DecidableEq

/-- Access control rule, as in config.rs. -/
structure AccessRule where
  rule_type : String
  pattern : String
deriving DecidableEq

/-- The configuration fields the claims exercise, from `ProxyConfig` in
config.rs.  `custom_headers` is a `HashMap` in the source; iteration order
is unspecified there, so a list is a faithful model.  Fields the verified
code never reads (backend_configs, log_level, timeout, and so on) are
omitted, except `retry_attempts`, which claim C3 is explicitly about. -/
structure ProxyConfig where
  backends : List String
  load_balancer_strategy : String
  health_check_enabled : Bool
  health_check_interval : Nat
  cache_enabled : Bool
  cache_ttl : Nat
  path_rewrite_rules : List PathRewriteRule
  custom_headers : List (String × String)
  access_rules : List AccessRule
  retry_attempts : Nat

/-! ## Health checker (health.rs) -/

/-- The `unhealthy_backends: HashMap of String to DateTime` field, modelled
as an association list from backend base URL to failure time in seconds. -/
abbrev HealthMap := List (String × Nat)

/-- Model of `HashMap::get` on the failure-record map. -/
def hm_lookup : HealthMap → String → Option Nat
  | [], _ => none
  | (k, t) :: rest, b => if k = b then some t else hm_lookup rest b

/-- Model of `HealthChecker::is_healthy` at wall-clock time `now`: healthy
when checking is disabled, no failure record exists, or the recovery
window `failure_time + health_check_interval` has elapsed. -/
def is_healthy (cfg : ProxyConfig) (m : HealthMap) (now : Nat) (backend : String) : Bool :=
  if !cfg.health_check_enabled then true
  else
    match hm_lookup m backend with
    | some t => if now < t + cfg.health_check_interval then false else true
    | none => true

/-- Model of `HealthChecker::mark_unhealthy`: `HashMap::insert` of the
current time, replacing any previous record. -/
def mark_unhealthy (m : HealthMap) (backend : String) (now : Nat) : HealthMap :=
  (backend, now) :: m.filter (fun p => p.1 ≠ backend)

/-- Model of `HealthChecker::mark_healthy`: `HashMap::remove`. -/
def mark_healthy (m : HealthMap) (backend : String) : HealthMap :=
  m.filter (fun p => p.1 ≠ backend)

/-- Model of `HealthChecker::get_healthy_backends`: filter the configured
backend list through `is_healthy`, preserving order. -/
def get_healthy_backends (cfg : ProxyConfig) (m : HealthMap) (now : Nat) : List String :=
  cfg.backends.filter (fun b => is_healthy cfg m now b)

/-! ## Load balancer (load_balancer.rs) -/

/-- Load-balancing strategies. -/
inductive LoadBalancerStrategy where
  | roundRobin | random | leastConnections | weightedRoundRobin
deriving DecidableEq

/-- Model of `LoadBalancerStrategy::from(&str)`: case-insensitive with
round robin as the fallback. -/
def strategyOfString (s : String) : LoadBalancerStrategy :=
  match lowerStr s with
  | "random" => .random
  | "least_connections" => .leastConnections
  | "weighted_round_robin" => .weightedRoundRobin
  | _ => .roundRobin

/-- Model of `LoadBalancer::round_robin_select` together with the
`fetch_add` on the shared counter: given the counter's current value,
returns the selected backend and the new counter value. -/
def round_robin_select (backends : List String) (counter : Nat) : Option String × Nat :=
  if backends.isEmpty then (none, counter)
  else (backends[counter % backends.length]?, counter + 1)

/-- Model of `LoadBalancer::get_backend` on an already-computed healthy
list.  `nanos` models the time-derived value the random strategy uses;
least-connections and weighted round robin fall back to round robin as the
source documents. -/
def get_backend (strat : LoadBalancerStrategy) (healthy : List String)
    (counter : Nat) (nanos : Nat) : Option String × Nat :=
  if healthy.isEmpty then (none, counter)
  else
    match strat with
    | .roundRobin => round_robin_select healthy counter
    | .random => (healthy[nanos % healthy.length]?, counter)
    | .leastConnections => round_robin_select healthy counter
    | .weightedRoundRobin => round_robin_select healthy counter

/-! ## Regular expressions (external `regex` crate)

The code delegates pattern matching to the `regex` crate.  The embedding
abstracts a compiled regex to its two observable operations — `is_match`
and a first-occurrence `replace` with a replacement template — and a regex
engine to the fallible compiler `Regex::new`.  A concrete instance
(`apiEngine` below) models the crate's documented behavior on the one
pattern the spec's example uses. -/

/-- A compiled regex: `isMatch` tests a string, `replaceOne` substitutes
the first match using a replacement template (first argument). -/
structure CompiledRegex where
  isMatch : String → Bool
  replaceOne : String → String → String

/-- A regex engine: model of `Regex::new`, `none` when compilation fails. -/
abbrev RegexEngine := String → Option CompiledRegex

/-- Expand the replacement template of the example rule: every `$1` is
replaced by the captured text, as the regex crate documents. -/
def expandTemplate : List Char → List Char → List Char
  | [], _ => []
  | '$' :: '1' :: rest, cap => cap ++ expandTemplate rest cap
  | c :: rest, cap => c :: expandTemplate rest cap

/-- Modelled from the regex crate's documented semantics for the anchored
pattern of the spec's example.  A pattern anchored as caret, a literal
slash-api-slash, then a dot-star capture group matches exactly the strings
with that literal as a prefix; the single match covers the whole string
and group 1 captures everything after the 5-character literal, so the
replacement is the expanded template. -/
def apiRegex : CompiledRegex where
  isMatch := fun s => strStarts s "/api/"
  replaceOne := fun repl s => String.mk (expandTemplate repl.data (s.data.drop 5))

/-- Engine knowing exactly the example pattern. -/
def apiEngine : RegexEngine := fun p =>
  if p = "^/api/(.*)" then some apiRegex else none

/-- Engine on which every compilation fails; used to run configurations
that contain no patterns at all. -/
def engineNone : RegexEngine := fun _ => none

/-- The path-rewrite rule of the spec's example. -/
def apiRule : PathRewriteRule :=
  { pattern := "^/api/(.*)", replacement := "/v2/$1" }

/-! ## Middleware (middleware.rs) -/

/-- Model of `check_access_control`: walk the rules in order; the first
denying rule returns false; unknown rule types are skipped; rules that
need data the request lacks (geo code, header) are skipped. -/
def check_access_control (E : RegexEngine) (req : Req) : List AccessRule → Bool
  | [] => true
  | rule :: rest =>
    match rule.rule_type with
    | "deny_ip" =>
      match hget "CF-Connecting-IP" req.headers with
      | some ip =>
        if ip = rule.pattern then false else check_access_control E req rest
      | none => check_access_control E req rest
    | "allow_country" =>
      match req.cf_country with
      | some country =>
        if country ≠ rule.pattern then false else check_access_control E req rest
      | none => check_access_control E req rest
    | "deny_country" =>
      match req.cf_country with
      | some country =>
        if country = rule.pattern then false else check_access_control E req rest
      | none => check_access_control E req rest
    | "deny_user_agent" =>
      match hget "User-Agent" req.headers with
      | some ua =>
        match E rule.pattern with
        | some rx => if rx.isMatch ua then false else check_access_control E req rest
        | none => check_access_control E req rest
      | none => check_access_control E req rest
    | _ => check_access_control E req rest

/-- Model of `apply_request_middleware`.  On an access-control denial it
fails with the literal error the source raises.  Otherwise it mutates the
headers and rebuilds the request with `Request::new_with_init` carrying
url, method, and headers but no body (`RequestInit::new()` defaults the
body to `None`), so the rebuilt request's body is empty. -/
def apply_request_middleware (E : RegexEngine) (req : Req) (cfg : ProxyConfig) :
    Except String Req :=
  if !check_access_control E req cfg.access_rules then .error "Access denied"
  else
    let h := req.headers
    let h := cfg.custom_headers.foldl (fun acc kv => hset kv.1 kv.2 acc) h
    let h := hset "X-Proxy-Agent" "Cloudflare-Workers-CF-Proxy/1.0" h
    let h := hset "X-Forwarded-By" "CF-Proxy" h
    .ok { req with headers := h, body := [] }

/-- Model of `apply_response_middleware`: security and identification
headers added, server-identifying headers removed. -/
def apply_response_middleware (response : Resp) : Resp :=
  let h := response.headers
  let h := hset "X-Content-Type-Options" "nosniff" h
  let h := hset "X-Frame-Options" "DENY" h
  let h := hset "X-XSS-Protection" "1; mode=block" h
  let h := hset "Referrer-Policy" "strict-origin-when-cross-origin" h
  let h := hset "X-Proxied-By" "Cloudflare-Workers" h
  let h := hdel "Server" h
  let h := hdel "X-Powered-By" h
  { response with headers := h }

/-! ## URL model (external `url` crate)

The code parses and resolves URLs with the `url` crate.  The model below
covers the class of URLs this codebase actually feeds it: absolute http or
https URLs with a hostname authority (no userinfo, no IPv6 literal, no
percent-encoding needed).  Parsing lowercases the host, drops a default
port, normalizes an empty path to a single slash and removes dot segments,
exactly as the crate's serialization does on this class. -/

/-- Parsed URL. -/
structure UrlModel where
  scheme : String
  host : String
  port : Option Nat
  path : String
  query : Option String
  fragment : Option String
deriving DecidableEq

/-- Take authority characters up to the first path, query, or fragment
delimiter; returns the authority and the rest including the delimiter. -/
def takeAuthority : List Char → List Char × List Char
  | [] => ([], [])
  | c :: cs =>
    if c = '/' ∨ c = '?' ∨ c = '#' then ([], c :: cs)
    else
      let r := takeAuthority cs
      (c :: r.1, r.2)

/-- Helper for `removeDotSegments`: RFC 3986 section 5.2.4 over the list
of slash-separated segments, with an output stack accumulated in reverse.
A trailing single-dot or double-dot segment leaves a trailing slash,
represented by a final empty segment. -/
def dotSegs : List String → List String → List String
  | acc, [] => acc.reverse
  | acc, [s] =>
    if s = "." then ("" :: acc).reverse
    else if s = ".." then ("" :: acc.tail).reverse
    else (s :: acc).reverse
  | acc, s :: y :: rest =>
    if s = "." then dotSegs acc (y :: rest)
    else if s = ".." then dotSegs acc.tail (y :: rest)
    else dotSegs (s :: acc) (y :: rest)

/-- RFC 3986 remove_dot_segments for a path that begins with a slash. -/
def removeDotSegments (p : String) : String :=
  match splitChar p '/' with
  | [] => p
  | _ :: segs => "/" ++ joinWith "/" (dotSegs [] segs)

/-- Model of `url::Url::parse` on the class described above. -/
def url_parse (s : String) : Option UrlModel :=
  let core := fun (scheme : String) (rest : String) =>
    let auth := takeAuthority rest.data
    let hostPort := splitCharFirst auth.1 ':'
    let host := String.mk hostPort.1
    if host = "" then none
    else
      let portParse : Option (Option Nat) :=
        match hostPort.2 with
        | none => some none
        | some [] => some none
        | some ds =>
          match digitsToNat ds with
          | some n => some (some n)
          | none => none
      match portParse with
      | none => none
      | some port =>
        let port :=
          if (scheme = "http" ∧ port = some 80) ∨ (scheme = "https" ∧ port = some 443) then
            none
          else port
        let afterAuth := String.mk auth.2
        let beforeFrag := splitFirst afterAuth '#'
        let pathQuery := splitFirst beforeFrag.1 '?'
        let path := if pathQuery.1 = "" then "/" else removeDotSegments pathQuery.1
        some { scheme := scheme, host := lowerStr host, port := port, path := path,
               query := pathQuery.2, fragment := beforeFrag.2 }
  if strStarts s "http://" then core "http" (strDrop s 7)
  else if strStarts s "https://" then core "https" (strDrop s 8)
  else none

/-- Model of `url::Url::to_string`. -/
def urlToString (u : UrlModel) : String :=
  u.scheme ++ "://" ++ u.host ++
    (match u.port with
     | some p => ":" ++ toString p
     | none => "") ++
    u.path ++
    (match u.query with
     | some q => "?" ++ q
     | none => "") ++
    (match u.fragment with
     | some f => "#" ++ f
     | none => "")

/-- RFC 3986 section 5.3 path merge for a base with an authority: the base
path up to and including its last slash, then the reference path. -/
def mergePaths (basePath r : String) : String :=
  String.mk (basePath.data.reverse.dropWhile (fun c => c ≠ '/')).reverse ++ r

/-- Model of `url::Url::join` (RFC 3986 reference resolution) for the
reference forms the redirect handler can feed it: a same-scheme relative
reference, possibly carrying its own query or fragment. -/
def url_join (u : UrlModel) (r : String) : UrlModel :=
  let beforeFrag := splitFirst r '#'
  let pathQuery := splitFirst beforeFrag.1 '?'
  if pathQuery.1 = "" then
    { u with
      query := match pathQuery.2 with
               | some q => some q
               | none => u.query
      fragment := beforeFrag.2 }
  else if strStarts pathQuery.1 "/" then
    { u with path := removeDotSegments pathQuery.1, query := pathQuery.2,
             fragment := beforeFrag.2 }
  else
    { u with path := removeDotSegments (mergePaths u.path pathQuery.1),
             query := pathQuery.2, fragment := beforeFrag.2 }

/-! ## Cache manager (cache.rs) -/

/-- The string the cache key is derived from.  The source hex-encodes the
SHA-256 of this string; the digest, being a fixed injective-by-intent
post-composition, is not modelled — no claim depends on digest values, only
on which key material is used and on whether a write happens at all. -/
def cache_key_material (method path query : String) : String :=
  "proxy:" ++ method ++ ":" ++ path ++ ":" ++ query

/-- Model of `CacheManager::generate_cache_key` up to the final SHA-256
hex encoding. -/
def generate_cache_key (req : Req) : String :=
  cache_key_material (methodToString req.method) req.path
    (match req.query with
     | some q => q
     | none => "")

/-- Model of `CacheManager::is_cacheable` (cache.rs): success status, no
forbidding Cache-Control directive, no wildcard Vary.  This function is
dead code in the source — the live pipeline check is
`should_cache_response` below, which omits the private and Vary tests. -/
def is_cacheable (response : Resp) : Bool :=
  if !(200 ≤ response.status ∧ response.status < 300) then false
  else
    match hget "Cache-Control" response.headers with
    | some cc =>
      if containsSub cc "no-cache" || containsSub cc "no-store" || containsSub cc "private" then
        false
      else
        match hget "Vary" response.headers with
        | some vary => if containsSub (lowerStr vary) "*" then false else true
        | none => true
    | none =>
      match hget "Vary" response.headers with
      | some vary => if containsSub (lowerStr vary) "*" then false else true
      | none => true

/-! ## Reverse proxy (lib.rs) -/

/-- Model of `ReverseProxy::apply_path_rewrite`: first rule whose pattern
compiles and matches wins, with a single substitution; rules that fail to
compile are skipped; no match leaves the path unchanged. -/
def apply_path_rewrite (E : RegexEngine) : List PathRewriteRule → String → String
  | [], path => path
  | rule :: rest, path =>
    match E rule.pattern with
    | some regex =>
      if regex.isMatch path then regex.replaceOne rule.replacement path
      else apply_path_rewrite E rest path
    | none => apply_path_rewrite E rest path

/-- Model of `ReverseProxy::build_target_url`: backend base, rewritten
path, then the query if present. -/
def build_target_url (E : RegexEngine) (cfg : ProxyConfig) (req : Req) (backend : String) :
    String :=
  let rewritten_path := apply_path_rewrite E cfg.path_rewrite_rules req.path
  match req.query with
  | some q => backend ++ rewritten_path ++ "?" ++ q
  | none => backend ++ rewritten_path

/-- Model of `ReverseProxy::create_proxy_request`: forwarded-for headers
injected, Host and Origin removed, custom headers overlaid, and the body
copied only for methods other than GET and HEAD. -/
def create_proxy_request (cfg : ProxyConfig) (req : Req) (target_url : String) : OutReq :=
  let h := req.headers
  let h :=
    match hget "CF-Connecting-IP" h with
    | some cf_ip => hset "X-Forwarded-For" cf_ip h
    | none => h
  let protocol := if strStarts req.urlString "https:" then "https" else "http"
  let h := hset "X-Forwarded-Proto" protocol h
  let h :=
    match hget "Host" h with
    | some host => hset "X-Forwarded-Host" host h
    | none => h
  let h := hdel "Host" h
  let h := hdel "Origin" h
  let h := cfg.custom_headers.foldl (fun acc kv => hset kv.1 kv.2 acc) h
  let body := if req.method = .get ∨ req.method = .head then [] else req.body
  { method := req.method, url := target_url, headers := h, body := body }

/-- Model of `ReverseProxy::should_cache_response` (lib.rs): caching
enabled, success status, and no no-cache or no-store directive. -/
def should_cache_response (cfg : ProxyConfig) (response : Resp) : Bool :=
  if !cfg.cache_enabled then false
  else if !(200 ≤ response.status ∧ response.status < 300) then false
  else
    match hget "Cache-Control" response.headers with
    | some cache_control =>
      if containsSub cache_control "no-cache" || containsSub cache_control "no-store" then
        false
      else true
    | none => true

/-- Model of `ReverseProxy::extract_target_url_from_path`: a path whose
remainder after the leading slash starts with an http or https scheme and
parses as an absolute URL resolves to that URL with the original query
merged in; the separator is an ampersand when the embedded URL already
carries a query, else a question mark. -/
def extract_target_url_from_path (path : String) (query : Option String) : Option String :=
  if strStarts path "/" then
    let target_start := strDrop path 1
    if strStarts target_start "http://" || strStarts target_start "https://" then
      match url_parse target_start with
      | some embedded_url =>
        let target_url := urlToString embedded_url
        match query with
        | some q =>
          let separator := if embedded_url.query.isSome then "&" else "?"
          some (target_url ++ separator ++ q)
        | none => some target_url
      | none => none
    else none
  else none

/-- Model of `ReverseProxy::is_redirect_response`. -/
def is_redirect_response (response : Resp) : Bool :=
  300 ≤ response.status ∧ response.status < 400

/-- Location rewriting inside `ReverseProxy::handle_redirect_response`:
root-relative values get the target's scheme and host prepended, absolute
http or https values pass through, anything else is resolved against the
target by RFC 3986 reference resolution; if the target fails to re-parse
the value passes through unchanged. -/
def rewrite_location (location : String) (original_target : String) : String :=
  if strStarts location "/" then
    match url_parse original_target with
    | some target_url => target_url.scheme ++ "://" ++ target_url.host ++ location
    | none => location
  else if strStarts location "http://" || strStarts location "https://" then location
  else
    match url_parse original_target with
    | some target_url => urlToString (url_join target_url location)
    | none => location

/-- Model of `ReverseProxy::handle_redirect_response`: when a Location
header is present it is replaced by its rewritten form. -/
def handle_redirect_response (response : Resp) (original_target : String) : Resp :=
  match hget "Location" response.headers with
  | some location =>
    { response with
      headers := hset "Location" (rewrite_location location original_target) response.headers }
  | none => response

/-- Model of `ReverseProxy::add_cors_headers`. -/
def add_cors_headers (response : Resp) : Resp :=
  let h := response.headers
  let h := hset "Access-Control-Allow-Origin" "*" h
  let h := hset "Access-Control-Allow-Methods" "GET, POST, PUT, DELETE, OPTIONS, HEAD, PATCH" h
  let h := hset "Access-Control-Allow-Headers" "Content-Type, Authorization, X-Requested-With, Accept, Origin, User-Agent, DNT, Cache-Control, X-Mx-ReqToken, Keep-Alive, X-Requested-With, If-Modified-Since" h
  let h := hset "Access-Control-Max-Age" "86400" h
  let h := hset "Access-Control-Allow-Credentials" "true" h
  { response with headers := h }

/-! ## The request pipeline (handle_request in lib.rs)

The asynchronous environment is a pure oracle: the dispatch result for an
outbound request, the cache store, and the two clocks.  Side effects the
handler performs are collected in an explicit trace. -/

/-- The environment one request runs against. -/
structure World where
  fetch : OutReq → Except String Resp
  cacheGet : String → Option String
  now : Nat
  nanos : Nat

/-- The mutable proxy state a request can read and write: the health
checker's failure-record map and the load balancer's shared counter. -/
structure PState where
  unhealthy : HealthMap
  counter : Nat
deriving DecidableEq

/-- Observable side effects of one request. -/
inductive Effect where
  | fetched (url : String)
  | cachePut (key : String) (value : String) (ttl : Nat)
  | markedUnhealthy (backend : String)
  | logged (msg : String)
deriving DecidableEq

/-- True on a cache-write effect. -/
def effIsCachePut : Effect → Bool
  | .cachePut _ _ _ => true
  | _ => false

/-- Outcome of one handled request. -/
structure HandleResult where
  response : Resp
  state : PState
  effects : List Effect
deriving DecidableEq

/-- Model of `CacheManager::get_cached_response`: nothing when caching is
disabled; otherwise a KV lookup under the request fingerprint, a hit being
returned as a fresh 200 text response. -/
def get_cached_response (cfg : ProxyConfig) (w : World) (req : Req) : Option Resp :=
  if !cfg.cache_enabled then none
  else
    match w.cacheGet (generate_cache_key req) with
    | some cached_data => some (respOk cached_data)
    | none => none

/-- The backend base URL the failure handler marks unhealthy: the target
URL cut after its third slash-separated field, that is scheme://host. -/
def backend_base (target_url : String) : String :=
  joinWith "/" ((splitChar target_url '/').take 3)

/-- Model of the tail of `handle_request` from the dispatch onward (lib.rs
lines 107 to 149): on a transport error, backend mode marks the backend
base unhealthy and answers the fixed 502, embedded-target mode answers the
same 502 leaving all state alone; on success, embedded-target redirects
get their Location rewritten, response middleware and CORS headers run,
and the cacheability check only logs — the source never writes the store
(the cachePut effect exists in the trace type but no branch emits it,
mirroring the log-only block at lines 142 to 147). -/
def dispatch_and_finish (cfg : ProxyConfig) (w : World) (s : PState)
    (is_url_proxy : Bool) (target_url : String) (proxy_req : OutReq) : HandleResult :=
  match w.fetch proxy_req with
  | .error _ =>
    if !is_url_proxy then
      let base := backend_base target_url
      { response := respError "Backend unavailable" 502
        state := { s with unhealthy := mark_unhealthy s.unhealthy base w.now }
        effects := [.fetched proxy_req.url, .markedUnhealthy base] }
    else
      { response := respError "Backend unavailable" 502
        state := s
        effects := [.fetched proxy_req.url] }
  | .ok response =>
    let processed_response :=
      if is_url_proxy && is_redirect_response response then
        handle_redirect_response response target_url
      else response
    let final_response := add_cors_headers (apply_response_middleware processed_response)
    let cache_log :=
      if should_cache_response cfg final_response then
        [Effect.logged "Response should be cached"]
      else []
    { response := final_response
      state := s
      effects := Effect.fetched proxy_req.url :: cache_log }

/-- Model of `ReverseProxy::handle_request`: CORS preflight, request
middleware, embedded-target resolution or cache lookup plus backend
selection, then dispatch and response finishing. -/
def handle_request (E : RegexEngine) (cfg : ProxyConfig) (w : World) (s : PState)
    (req : Req) : Except String HandleResult :=
  if req.method = .options then
    .ok { response := add_cors_headers (respOk ""), state := s, effects := [] }
  else
    match apply_request_middleware E req cfg with
    | .error e => .error e
    | .ok req2 =>
      match extract_target_url_from_path req2.path req2.query with
      | some target_url =>
        .ok (dispatch_and_finish cfg w s true target_url
              (create_proxy_request cfg req2 target_url))
      | none =>
        match get_cached_response cfg w req2 with
        | some cached_response =>
          .ok { response := cached_response, state := s, effects := [] }
        | none =>
          let healthy := get_healthy_backends cfg s.unhealthy w.now
          let strat := strategyOfString cfg.load_balancer_strategy
          match get_backend strat healthy s.counter w.nanos with
          | (none, counter2) =>
            .ok { response := respError "No healthy backends available" 503
                  state := { s with counter := counter2 }
                  effects := [] }
          | (some backend, counter2) =>
            let target_url := build_target_url E cfg req2 backend
            .ok (dispatch_and_finish cfg w { s with counter := counter2 } false target_url
                  (create_proxy_request cfg req2 target_url))

/-- Project the success value of a fallible computation. -/
def okPart : Except String α → Option α
  | .ok a => some a
  | .error _ => none

/-! ## Concrete fixtures used by witnesses and counterexamples -/

/-- A minimal configuration: one backend, caching on, health checking off,
no rules. -/
def cfgC : ProxyConfig :=
  { backends := ["https://b.example"], load_balancer_strategy := "round_robin",
    health_check_enabled := false, health_check_interval := 30,
    cache_enabled := true, cache_ttl := 300, path_rewrite_rules := [],
    custom_headers := [], access_rules := [], retry_attempts := 3 }

/-- Health checking enabled with a zero recovery interval — a value the
configuration parser accepts from the environment. -/
def cfgZeroC : ProxyConfig :=
  { cfgC with health_check_enabled := true, health_check_interval := 0 }

/-- Health checking enabled with the default thirty-second interval. -/
def cfgHealthC : ProxyConfig :=
  { cfgC with health_check_enabled := true, health_check_interval := 30 }

/-- Environment whose backend always answers 200 with body hello and whose
cache is empty. -/
def worldC : World :=
  { fetch := fun _ => .ok { status := 200, headers := [], body := "hello" },
    cacheGet := fun _ => none, now := 0, nanos := 0 }

/-- Environment whose backend dispatch always fails. -/
def worldFailC : World :=
  { fetch := fun _ => .error "connect error", cacheGet := fun _ => none,
    now := 0, nanos := 0 }

/-- Fresh proxy state: empty health map, counter at zero. -/
def psEmpty : PState := { unhealthy := [], counter := 0 }

/-- Plain GET request with no body and no special headers. -/
def reqGetC : Req :=
  { method := .get, urlString := "https://proxy.example/p", path := "/p", query := none,
    cf_country := none, headers := [], body := [] }

/-- POST request with a two-byte body. -/
def reqPostC : Req :=
  { method := .post, urlString := "https://proxy.example/p", path := "/p", query := none,
    cf_country := none, headers := [], body := [104, 105] }

/-- Concrete outbound request used by the dispatch-failure witness. -/
def preqC : OutReq :=
  { method := .get, url := "https://b.example/x", headers := [], body := [] }

/-! ## Claim theorems -/

/-- C1: the claim says a cacheable final response in backend mode with
caching enabled is persisted into the external cache.  The code violates
this: running the whole pipeline on a request whose backend answer is
cacheable (status 200, caching enabled, no Cache-Control) leaves the
cacheability check true yet emits no cache-write effect at all — the
success path of handle_request only logs at the point where the write
should happen, and the writer cache_response is dead code (which would
moreover key by a random UUID, not the lookup fingerprint). -/
theorem claim_C1_cache_never_persisted :
    (okPart (handle_request engineNone cfgC worldC psEmpty reqGetC)).map
        (fun r => (should_cache_response cfgC r.response,
                   r.effects.filter effIsCachePut,
                   r.response.status))
      = some (true, [], 200) := by
  rfl

/-- C2: the claim says the outbound body equals the inbound body for
non-GET/HEAD methods.  The code violates this: apply_request_middleware
rebuilds the request without a body, so the outbound request that
create_proxy_request builds from the middleware output — exactly the
composition handle_request performs — carries an empty body even though
the inbound POST body was nonempty. -/
theorem claim_C2_body_dropped :
    (okPart (apply_request_middleware engineNone reqPostC cfgC)).map
        (fun r => (create_proxy_request cfgC r "https://b.example/p").body)
      = some []
  ∧ reqPostC.body = [104, 105] :=
  ⟨rfl, rfl⟩

/-- C3: when the dispatch transport fails, backend mode marks the selected
backend's base URL unhealthy and returns the fixed Backend-unavailable 502
having fetched exactly the one target (no retry), embedded-target mode
leaves the proxy state untouched, and the outcome does not depend on the
configured retry count. -/
theorem claim_C3_transport_failure (cfg : ProxyConfig) (w : World) (s : PState)
    (target_url : String) (preq : OutReq) (e : String)
    (hfail : w.fetch preq = .error e) :
    ((dispatch_and_finish cfg w s false target_url preq).state.unhealthy
        = mark_unhealthy s.unhealthy (backend_base target_url) w.now)
  ∧ (dispatch_and_finish cfg w s false target_url preq).response
        = respError "Backend unavailable" 502
  ∧ (dispatch_and_finish cfg w s false target_url preq).effects
        = [Effect.fetched preq.url, Effect.markedUnhealthy (backend_base target_url)]
  ∧ (dispatch_and_finish cfg w s true target_url preq).state = s
  ∧ (dispatch_and_finish cfg w s true target_url preq).response
        = respError "Backend unavailable" 502
  ∧ ∀ n, dispatch_and_finish { cfg with retry_attempts := n } w s false target_url preq
        = dispatch_and_finish cfg w s false target_url preq := by
  simp [dispatch_and_finish, hfail]

/-- Witness for C3 at a concrete failing world. -/
theorem claim_C3_witness :
    (dispatch_and_finish cfgC worldFailC psEmpty false "https://b.example/x" preqC).state.unhealthy
      = mark_unhealthy psEmpty.unhealthy (backend_base "https://b.example/x") worldFailC.now :=
  (claim_C3_transport_failure cfgC worldFailC psEmpty "https://b.example/x" preqC
    "connect error" rfl).1

/-- C4: with a fixed healthy list of length at least one, the round-robin
index map over one cycle of consecutive counter values is injective, and
the list of the corresponding consecutive selections is a permutation of
the backend list — every backend exactly once before any repeat. -/
theorem claim_C4_round_robin_cycle (backends : List String) (c : Nat)
    (hN : 0 < backends.length) :
    (∀ i j, i < backends.length → j < backends.length →
        (c + i) % backends.length = (c + j) % backends.length → i = j)
  ∧ ((List.range backends.length).map
        (fun i => (round_robin_select backends (c + i)).1)).Perm
      (backends.map some) := by
  constructor
  · intro i j hi hj h
    have hmod : i % backends.length = j % backends.length :=
      Nat.ModEq.add_left_cancel' c h
    rwa [Nat.mod_eq_of_lt hi, Nat.mod_eq_of_lt hj] at hmod
  · have hne : backends.isEmpty = false := by
      cases backends with
      | nil => simp at hN
      | cons a l => rfl
    have heq : (List.range backends.length).map
          (fun i => (round_robin_select backends (c + i)).1)
        = (backends.rotate c).map some := by
      apply List.ext_getElem
      · simp
      · intro i h1 h2
        have hlen : i < backends.length := by simpa using h1
        have hm : (c + i) % backends.length < backends.length := Nat.mod_lt _ hN
        simp only [List.getElem_map, List.getElem_range, round_robin_select, hne,
          Bool.false_eq_true, if_false, List.getElem_rotate]
        rw [List.getElem?_eq_getElem hm]
        have hci : (c + i) % backends.length = (i + c) % backends.length := by
          rw [Nat.add_comm]
        simp [hci]
    rw [heq]
    exact (List.rotate_perm backends c).map some

/-- Witness for C4: three backends, counter starting at seven. -/
theorem claim_C4_witness :
    ((List.range 3).map (fun i => (round_robin_select ["a", "b", "c"] (7 + i)).1)).Perm
      (["a", "b", "c"].map some) :=
  (claim_C4_round_robin_cycle ["a", "b", "c"] 7 (by decide)).2

/-- C7 counterexample: with health checking enabled and a zero interval —
a configuration the environment parser accepts — the backend is healthy
again at the very moment it was marked unhealthy, so the claim's
"is_healthy is false immediately after mark_unhealthy" fails as stated. -/
theorem claim_C7_counterexample :
    ¬ is_healthy cfgZeroC (mark_unhealthy [] "https://b.example" 5) 5 "https://b.example"
        = false := by
  decide

/-- C7 as amended: with health checking enabled, after mark_unhealthy at
time t the backend is healthy at time now exactly when
t + health_check_interval has been reached — hence unhealthy immediately
after provided the interval is positive — and a disabled checker or a
missing failure record always reads healthy. -/
theorem claim_C7_health_window (cfg : ProxyConfig) (m : HealthMap) (b : String)
    (t now : Nat) :
    (cfg.health_check_enabled = true → 0 < cfg.health_check_interval →
        is_healthy cfg (mark_unhealthy m b t) t b = false)
  ∧ (cfg.health_check_enabled = true →
        (is_healthy cfg (mark_unhealthy m b t) now b = true
          ↔ t + cfg.health_check_interval ≤ now))
  ∧ (cfg.health_check_enabled = false → is_healthy cfg m now b = true)
  ∧ (hm_lookup m b = none → is_healthy cfg m now b = true) := by
  have hlook : hm_lookup (mark_unhealthy m b t) b = some t := by
    simp [mark_unhealthy, hm_lookup]
  refine ⟨?_, ?_, ?_, ?_⟩
  · intro hen hpos
    simp only [is_healthy, hen, hlook, Bool.not_true, Bool.false_eq_true, if_false]
    have : t < t + cfg.health_check_interval := by omega
    simp [this]
  · intro hen
    simp only [is_healthy, hen, hlook, Bool.not_true, Bool.false_eq_true, if_false]
    by_cases hlt : now < t + cfg.health_check_interval
    · simp [hlt]
    · simp [hlt]
      omega
  · intro hdis
    simp [is_healthy, hdis]
  · intro hnone
    cases hen : cfg.health_check_enabled with
    | false => simp [is_healthy, hen]
    | true => simp [is_healthy, hen, hnone]

/-- Witness for C7 at the default thirty-second interval. -/
theorem claim_C7_witness :
    is_healthy cfgHealthC (mark_unhealthy [] "https://b.example" 5) 5 "https://b.example"
      = false :=
  (claim_C7_health_window cfgHealthC [] "https://b.example" 5 5).1 rfl (by decide)

/-- Lookup under a key never finds anything in a list filtered to exclude
that key. -/
theorem hm_lookup_filter_ne (m : HealthMap) (b : String) :
    hm_lookup (m.filter (fun p => p.1 ≠ b)) b = none := by
  induction m with
  | nil => rfl
  | cons p rest ih =>
    rcases p with ⟨k, v⟩
    rw [List.filter_cons]
    by_cases h : k = b
    · rw [if_neg (by simp [h])]
      exact ih
    · rw [if_pos (by simp [h])]
      rw [hm_lookup, if_neg h]
      exact ih

/-- A list whose lookup under b is empty is unchanged by filtering b out. -/
theorem filter_ne_of_lookup_none (m : HealthMap) (b : String)
    (h : hm_lookup m b = none) : m.filter (fun p => p.1 ≠ b) = m := by
  induction m with
  | nil => rfl
  | cons p rest ih =>
    rcases p with ⟨k, v⟩
    by_cases hk : k = b
    · simp [hm_lookup, hk] at h
    · rw [hm_lookup, if_neg hk] at h
      rw [List.filter_cons, if_pos (by simp [hk]), ih h]

/-- C10: marking unhealthy then healthy leaves exactly the original map
with the backend's entry removed, the backend then reads healthy for every
configuration and clock, and marking healthy with no record present is the
identity. -/
theorem claim_C10_mark_healthy_algebra (m : HealthMap) (b : String) (t : Nat)
    (cfg : ProxyConfig) (now : Nat) :
    mark_healthy (mark_unhealthy m b t) b = m.filter (fun p => p.1 ≠ b)
  ∧ hm_lookup (mark_healthy (mark_unhealthy m b t) b) b = none
  ∧ is_healthy cfg (mark_healthy (mark_unhealthy m b t) b) now b = true
  ∧ (hm_lookup m b = none → mark_healthy m b = m) := by
  have h1 : mark_healthy (mark_unhealthy m b t) b = m.filter (fun p => p.1 ≠ b) := by
    simp only [mark_healthy, mark_unhealthy, List.filter_cons]
    simp [List.filter_filter]
  refine ⟨h1, ?_, ?_, ?_⟩
  · rw [h1]
    exact hm_lookup_filter_ne m b
  · rw [h1]
    cases hen : cfg.health_check_enabled with
    | false => simp [is_healthy, hen]
    | true =>
      unfold is_healthy
      rw [hen, hm_lookup_filter_ne]
      simp
  · intro hnone
    exact filter_ne_of_lookup_none m b hnone

/-- Witness for C10 on a one-entry map holding a different backend. -/
theorem claim_C10_witness :
    mark_healthy [("https://other.example", 3)] "https://b.example"
      = [("https://other.example", 3)] :=
  (claim_C10_mark_healthy_algebra [("https://other.example", 3)] "https://b.example" 5
    cfgC 0).2.2.2 (by decide)

/-- C5: a path that is a slash immediately followed by an http or https
scheme, and whose remainder parses as an absolute URL, resolves to that
embedded URL with the original query merged in — separator ampersand when
the embedded URL already carries a query, question mark otherwise. -/
theorem claim_C5_embedded_url_query_merge (path : String) (q : String) (u : UrlModel)
    (hslash : strStarts path "/" = true)
    (hscheme : (strStarts (strDrop path 1) "http://"
        || strStarts (strDrop path 1) "https://") = true)
    (hparse : url_parse (strDrop path 1) = some u) :
    extract_target_url_from_path path (some q)
      = some (urlToString u ++ (if u.query.isSome then "&" else "?") ++ q) := by
  simp [extract_target_url_from_path, hslash, hscheme, hparse]

/-- Witness for C5: the spec's own example. -/
theorem claim_C5_witness :
    extract_target_url_from_path "/https://example.com/foo?x=1" (some "y=2")
      = some "https://example.com/foo?x=1&y=2" := by
  have h := claim_C5_embedded_url_query_merge "/https://example.com/foo?x=1" "y=2"
    { scheme := "https", host := "example.com", port := none, path := "/foo",
      query := some "x=1", fragment := none } rfl rfl rfl
  simpa using h

/-- A string starting with an http or https scheme does not start with a
slash. -/
theorem startsHttpNotSlash (loc : String)
    (h : (strStarts loc "http://" || strStarts loc "https://") = true) :
    strStarts loc "/" = false := by
  unfold strStarts at h ⊢
  have h1 : "http://".data = 'h' :: "ttp://".data := rfl
  have h2 : "https://".data = 'h' :: "ttps://".data := rfl
  have h3 : "/".data = '/' :: ([] : List Char) := rfl
  rw [h1, h2] at h
  rw [h3]
  cases hl : loc.data with
  | nil => rw [hl] at h; simp [listStarts] at h
  | cons c cs =>
    rw [hl] at h
    simp only [listStarts] at h ⊢
    by_cases hch : c = 'h'
    · subst hch
      have hne : ('h' : Char) ≠ '/' := by decide
      simp [hne]
    · simp [hch] at h

/-- C6: in embedded-target mode a redirect's Location header is replaced by
its rewritten value, and the rewrite acts case by case: a root-relative
value gets the resolved target's scheme and host prepended; a value with
its own http or https scheme passes through unchanged; any other value is
resolved against the target by RFC 3986 reference resolution — in
particular target https a.com slash x slash y with Location bar yields
https a.com slash x slash bar. -/
theorem claim_C6_redirect_location_rewrite (target loc : String) (u : UrlModel)
    (resp : Resp) (hparse : url_parse target = some u) :
    ((strStarts loc "/" = true →
        rewrite_location loc target = u.scheme ++ "://" ++ u.host ++ loc)
    ∧ ((strStarts loc "http://" || strStarts loc "https://") = true →
        rewrite_location loc target = loc)
    ∧ (strStarts loc "/" = false →
        (strStarts loc "http://" || strStarts loc "https://") = false →
        rewrite_location loc target = urlToString (url_join u loc))
    ∧ (hget "Location" resp.headers = some loc →
        handle_redirect_response resp target
          = { resp with
              headers := hset "Location" (rewrite_location loc target) resp.headers })
    ∧ (∀ (cfg : ProxyConfig) (w : World) (s : PState) (preq : OutReq),
        w.fetch preq = .ok resp → is_redirect_response resp = true →
        (dispatch_and_finish cfg w s true target preq).response
          = add_cors_headers (apply_response_middleware (handle_redirect_response resp target))))
  ∧ rewrite_location "bar" "https://a.com/x/y" = "https://a.com/x/bar" := by
  refine ⟨⟨?_, ?_, ?_, ?_, ?_⟩, rfl⟩
  · intro hs
    simp [rewrite_location, hs, hparse]
  · intro hh
    have hns := startsHttpNotSlash loc hh
    simp [rewrite_location, hns, hh]
  · intro hns hnh
    simp [rewrite_location, hns, hnh, hparse]
  · intro hloc
    simp [handle_redirect_response, hloc]
  · intro cfg w s preq hfetch hred
    simp [dispatch_and_finish, hfetch, hred]

/-- Witness for C6: root-relative rewrite of the spec's example. -/
theorem claim_C6_witness :
    rewrite_location "/login" "https://a.com/x" = "https://a.com/login" := by
  have h := claim_C6_redirect_location_rewrite "https://a.com/x" "/login"
    { scheme := "https", host := "a.com", port := none, path := "/x", query := none,
      fragment := none } (respOk "") rfl
  simpa using h.1.1 rfl

/-- A rule misses a path when its pattern fails to compile or the compiled
regex does not match. -/
def ruleMisses (E : RegexEngine) (path : String) (r : PathRewriteRule) : Bool :=
  match E r.pattern with
  | some rx => !rx.isMatch path
  | none => true

/-- C8: rewrite rules are tried in order; the first whose pattern compiles
and matches performs one substitution and evaluation stops; a non-matching
head falls through; when every rule misses the path is unchanged; and on
the spec's example rule the api path is rewritten while a non-matching
path passes through. -/
theorem claim_C8_first_match_rewrite (E : RegexEngine) (path : String) :
    (∀ r rest rx, E r.pattern = some rx → rx.isMatch path = true →
        apply_path_rewrite E (r :: rest) path = rx.replaceOne r.replacement path)
  ∧ (∀ r rest rx, E r.pattern = some rx → rx.isMatch path = false →
        apply_path_rewrite E (r :: rest) path = apply_path_rewrite E rest path)
  ∧ (∀ rules, (∀ r ∈ rules, ruleMisses E path r = true) →
        apply_path_rewrite E rules path = path)
  ∧ apply_path_rewrite apiEngine [apiRule] "/api/users" = "/v2/users"
  ∧ apply_path_rewrite apiEngine [apiRule] "/other" = "/other" := by
  refine ⟨?_, ?_, ?_, rfl, rfl⟩
  · intro r rest rx hc hm
    simp [apply_path_rewrite, hc, hm]
  · intro r rest rx hc hm
    simp [apply_path_rewrite, hc, hm]
  · intro rules
    induction rules with
    | nil => intro _; rfl
    | cons r rest ih =>
      intro hall
      have hr := hall r (List.mem_cons_self r rest)
      have ih' := ih (fun r2 hr2 => hall r2 (List.mem_cons_of_mem r hr2))
      unfold ruleMisses at hr
      cases hc : E r.pattern with
      | none => simp [apply_path_rewrite, hc, ih']
      | some rx =>
        rw [hc] at hr
        simp only [Bool.not_eq_true'] at hr
        simp [apply_path_rewrite, hc, hr, ih']

/-- Witness for C8: the no-match fall-through at a concrete rule list. -/
theorem claim_C8_witness :
    apply_path_rewrite apiEngine [apiRule] "/none" = "/none" :=
  (claim_C8_first_match_rewrite apiEngine "/none").2.2.1 [apiRule] (by decide)

/-- A rule is one of the two country-based types. -/
def isCountryRule (r : AccessRule) : Bool :=
  r.rule_type = "allow_country" || r.rule_type = "deny_country"

/-- C9: when the platform supplies no country code, the two country rule
types never deny: the verdict over any rule list equals the verdict over
that list with the country rules removed, and in particular a
configuration holding only an allow-country rule admits the request. -/
theorem claim_C9_no_geo_country_rules_skip (E : RegexEngine) (req : Req)
    (hng : req.cf_country = none) :
    (∀ rules, check_access_control E req rules
        = check_access_control E req (rules.filter (fun r => !isCountryRule r)))
  ∧ (∀ pat, check_access_control E req
        [{ rule_type := "allow_country", pattern := pat }] = true) := by
  constructor
  · intro rules
    induction rules with
    | nil => rfl
    | cons r rest ih =>
      rcases r with ⟨rt, pat⟩
      rw [List.filter_cons]
      by_cases h1 : rt = "deny_ip"
      · subst h1
        rw [if_pos (show (!isCountryRule ⟨"deny_ip", pat⟩) = true from rfl)]
        cases hip : hget "CF-Connecting-IP" req.headers with
        | none => simp [check_access_control, hip, ih]
        | some ip =>
          by_cases he : ip = pat
          · simp [check_access_control, hip, he]
          · simp [check_access_control, hip, he, ih]
      · by_cases h2 : rt = "allow_country"
        · subst h2
          have hf : (!isCountryRule ⟨"allow_country", pat⟩) = false := rfl
          rw [if_neg (by simp [hf])]
          simp [check_access_control, hng, ih]
        · by_cases h3 : rt = "deny_country"
          · subst h3
            have hf : (!isCountryRule ⟨"deny_country", pat⟩) = false := rfl
            rw [if_neg (by simp [hf])]
            simp [check_access_control, hng, ih]
          · by_cases h4 : rt = "deny_user_agent"
            · subst h4
              rw [if_pos (show (!isCountryRule ⟨"deny_user_agent", pat⟩) = true from rfl)]
              cases hua : hget "User-Agent" req.headers with
              | none => simp [check_access_control, hua, ih]
              | some ua =>
                cases hrc : E pat with
                | none => simp [check_access_control, hua, hrc, ih]
                | some rx =>
                  by_cases hm : rx.isMatch ua = true
                  · simp [check_access_control, hua, hrc, hm]
                  · simp [check_access_control, hua, hrc, hm, ih]
            · have hcr : (!isCountryRule ⟨rt, pat⟩) = true := by
                simp [isCountryRule, h2, h3]
              rw [if_pos hcr]
              rw [check_access_control, check_access_control]
              split
              · simp_all
              · simp_all
              · simp_all
              · simp_all
              · exact ih
  · intro pat
    simp [check_access_control, hng]

/-- Witness for C9 at a concrete geo-less request. -/
theorem claim_C9_witness :
    check_access_control engineNone reqGetC
        [{ rule_type := "allow_country", pattern := "US" },
         { rule_type := "deny_country", pattern := "CN" }]
      = check_access_control engineNone reqGetC
          (List.filter (fun r => !isCountryRule r)
            [{ rule_type := "allow_country", pattern := "US" },
             { rule_type := "deny_country", pattern := "CN" }]) :=
  (claim_C9_no_geo_country_rules_skip engineNone reqGetC rfl).1
    [{ rule_type := "allow_country", pattern := "US" },
     { rule_type := "deny_country", pattern := "CN" }]

end CfProxy

